import Mathlib

/-!
Verification of the snapshot-configuration core of
`buildbuddy-io/firecracker` (`src/vmm/src/vmm_config/snapshot.rs`).

The data model (enumerations, raw and canonical configuration records,
lifecycle state) is embedded directly from the Rust source. Paths
(`PathBuf`) are embedded as `String`: the spec declares all paths opaque
strings to this core. The normalization / validation logic and the
lifecycle transition logic live outside the given source tree; those
components are modelled from the specification text and each such
definition says so in its doc comment.
-/

namespace Snapshot

/-- The snapshot type options available when creating a new snapshot
(`SnapshotType` in the source): `Diff` or `Full`, with `Full` marked as
the default variant. -/
inductive SnapshotType where
  | Diff
  | Full
deriving DecidableEq, Repr

/-- The `#[default]` variant of `SnapshotType` in the source is `Full`. -/
def SnapshotType.default : SnapshotType := SnapshotType.Full

/-- The method through which guest memory gets populated when resuming
from a snapshot (`MemBackendType` in the source). -/
inductive MemBackendType where
  | File
  | Uffd
  | UffdPrivileged
deriving DecidableEq, Repr

/-- Configuration used for managing snapshot memory
(`MemBackendConfig` in the source): a backend path and a backend type. -/
structure MemBackendConfig where
  backend_path : String
  backend_type : MemBackendType
deriving DecidableEq, Repr

/-- Configuration used for creating a snapshot
(`CreateSnapshotParams` in the source). -/
structure CreateSnapshotParams where
  snapshot_type : SnapshotType
  snapshot_path : String
  mem_file_path : String
  version : Option String
deriving DecidableEq, Repr

/-- The canonical configuration used for loading a snapshot
(`LoadSnapshotParams` in the source). Its `mem_backend` field is a plain
`MemBackendConfig`, not an `Option`: canonical parameters always carry a
resolved memory backend. -/
structure LoadSnapshotParams where
  snapshot_path : String
  mem_backend : MemBackendConfig
  enable_diff_snapshots : Bool
  resume_vm : Bool
deriving DecidableEq, Repr

/-- The raw, user-provided configuration for loading a snapshot
(`LoadSnapshotConfig` in the source): both `mem_file_path` and
`mem_backend` are independently optional, and the two Boolean flags
default to `false` when absent. -/
structure LoadSnapshotConfig where
  snapshot_path : String
  mem_file_path : Option String
  mem_backend : Option MemBackendConfig
  enable_diff_snapshots : Bool
  resume_vm : Bool
deriving DecidableEq, Repr

/-- The microVM state options (`VmState` in the source). -/
inductive VmState where
  | Paused
  | Resumed
deriving DecidableEq, Repr

/-- The microVM state wrapper exchanged in the snapshotting context
(`Vm` in the source). -/
structure Vm where
  state : VmState
deriving DecidableEq, Repr

/-- The error taxonomy of the spec (section 7): every rejection carries
one of these named reasons. -/
inductive SnapshotConfigError where
  | AmbiguousMemorySource
  | MissingMemorySource
  | InvalidPath
  | ConflictingOutputPaths
  | UnsupportedVersion
deriving DecidableEq, Repr

/-- Modelled from the spec: the Memory-Backend Normalizer (spec section
4.2) is not part of the given source tree. Its rule, quoted: if the bare
path is present and the descriptor is absent, produce a descriptor of
kind File using that path; if the descriptor is present and the bare
path is absent, pass the descriptor through unchanged; if both are
present reject (AmbiguousMemorySource); if both are absent reject
(MissingMemorySource). -/
def resolveMemBackend :
    Option String → Option MemBackendConfig →
    Except SnapshotConfigError MemBackendConfig
  | some p, none => Except.ok ⟨p, MemBackendType.File⟩
  | none, some b => Except.ok b
  | some _, some _ => Except.error SnapshotConfigError.AmbiguousMemorySource
  | none, none => Except.error SnapshotConfigError.MissingMemorySource

/-- Modelled from the spec: the Load-Configuration Validator (spec
section 4.3) is not part of the given source tree. It checks that every
path appearing in the raw configuration is syntactically well-formed
(non-empty), rejecting with InvalidPath otherwise, and then assembles
`LoadSnapshotParams` using `resolveMemBackend`. -/
def validateLoadConfig (cfg : LoadSnapshotConfig) :
    Except SnapshotConfigError LoadSnapshotParams :=
  if cfg.snapshot_path = "" then
    Except.error SnapshotConfigError.InvalidPath
  else if cfg.mem_file_path = some "" then
    Except.error SnapshotConfigError.InvalidPath
  else if cfg.mem_backend.map MemBackendConfig.backend_path = some "" then
    Except.error SnapshotConfigError.InvalidPath
  else
    match resolveMemBackend cfg.mem_file_path cfg.mem_backend with
    | Except.error e => Except.error e
    | Except.ok b =>
        Except.ok ⟨cfg.snapshot_path, b, cfg.enable_diff_snapshots, cfg.resume_vm⟩

/-- The Snapshot-Type Resolver (spec section 4.1): an omitted snapshot
type resolves to the source's default variant (`Full`, per the
`#[serde(default = "SnapshotType::default")]` attribute on
`CreateSnapshotParams::snapshot_type`); a given value is used unchanged.
A total function with no error conditions. -/
def resolveSnapshotType : Option SnapshotType → SnapshotType
  | none => SnapshotType.default
  | some t => t

/-- The raw (pre-resolution) shape of a create-snapshot request: the
snapshot type tag is optional at the boundary, everything else as in
`CreateSnapshotParams`. -/
structure CreateSnapshotConfig where
  snapshot_type : Option SnapshotType
  snapshot_path : String
  mem_file_path : String
  version : Option String
deriving DecidableEq, Repr

/-- Modelled from the spec: the Create-Configuration Validator (spec
section 4.4) is not part of the given source tree. It applies the
snapshot-type default and rejects configuration where the output state
path equals the output memory path (ConflictingOutputPaths). The spec
itself (section 9) flags this equality check as a recommended hardening
whose presence in the original source is unconfirmed. -/
def validateCreateConfig (cfg : CreateSnapshotConfig) :
    Except SnapshotConfigError CreateSnapshotParams :=
  if cfg.snapshot_path = cfg.mem_file_path then
    Except.error SnapshotConfigError.ConflictingOutputPaths
  else
    Except.ok ⟨resolveSnapshotType cfg.snapshot_type, cfg.snapshot_path,
               cfg.mem_file_path, cfg.version⟩

/-- The requests that drive the lifecycle machine of spec section 4.5:
a snapshot load (carrying its `resume_vm` flag) or a snapshot-create
request. -/
inductive SnapshotAction where
  | load (resume_vm : Bool)
  | createSnapshot
deriving DecidableEq, Repr

/-- Modelled from the spec: the VM Lifecycle Tracker (spec section 4.5)
is not part of the given source tree; only the `VmState` tag is. A
snapshot-create request is only permitted when the tracked state is
Paused (and does not change it); a successful load with
`resume_vm = true` transitions Paused to Resumed; a load with
`resume_vm = false` leaves it Paused; no other transitions are defined
within this core (`none` = the request is not permitted here). -/
def vmStep : VmState → SnapshotAction → Option VmState
  | VmState.Paused, SnapshotAction.load true => some VmState.Resumed
  | VmState.Paused, SnapshotAction.load false => some VmState.Paused
  | VmState.Paused, SnapshotAction.createSnapshot => some VmState.Paused
  | VmState.Resumed, _ => none

/-!
Deserialization boundary. The source derives `Deserialize` with
`#[serde(deny_unknown_fields)]` on `CreateSnapshotParams`,
`LoadSnapshotConfig` and `MemBackendConfig`. We embed the relevant
serde semantics over a small JSON-like value type: an object payload is
a list of named fields; a field name outside the struct's schema is a
deserialization error; a missing `Option` field is `none` (and an
explicit `null` is also `none`); a missing `#[serde(default)]` Bool
field is `false`; a missing `snapshot_type` is the default `Full`.
The deserializers return `Option` (`none` = the payload is rejected).
-/

/-- A JSON-like value, as much of it as the payload schemas need. -/
inductive JsonValue where
  | str (s : String)
  | bool (b : Bool)
  | obj (fields : List (String × JsonValue))
  | null

/-- The field names of the `CreateSnapshotParams` schema. -/
def createSnapshotFields : List String :=
  ["snapshot_type", "snapshot_path", "mem_file_path", "version"]

/-- The field names of the `LoadSnapshotConfig` schema. -/
def loadSnapshotConfigFields : List String :=
  ["snapshot_path", "mem_file_path", "mem_backend",
   "enable_diff_snapshots", "resume_vm"]

/-- The field names of the `MemBackendConfig` schema. -/
def memBackendConfigFields : List String :=
  ["backend_path", "backend_type"]

/-- Look up a field by name in an object payload (first occurrence). -/
def lookupField (payload : List (String × JsonValue)) (k : String) :
    Option JsonValue :=
  (payload.find? (fun kv => kv.1 = k)).map Prod.snd

/-- Deserialize a JSON string. -/
def parseString : JsonValue → Option String
  | JsonValue.str s => some s
  | _ => none

/-- Deserialize a JSON Boolean. -/
def parseBool : JsonValue → Option Bool
  | JsonValue.bool b => some b
  | _ => none

/-- Deserialize a `MemBackendType` tag ("File" | "Uffd" |
"UffdPrivileged", the three unit variants of the source enum). -/
def parseMemBackendType : JsonValue → Option MemBackendType
  | JsonValue.str "File" => some MemBackendType.File
  | JsonValue.str "Uffd" => some MemBackendType.Uffd
  | JsonValue.str "UffdPrivileged" => some MemBackendType.UffdPrivileged
  | _ => none

/-- Deserialize a `SnapshotType` tag ("Diff" | "Full"). -/
def parseSnapshotType : JsonValue → Option SnapshotType
  | JsonValue.str "Diff" => some SnapshotType.Diff
  | JsonValue.str "Full" => some SnapshotType.Full
  | _ => none

/-- An optional path field: absent or `null` is `none`; otherwise the
value must be a string. -/
def parseOptPath : Option JsonValue → Option (Option String)
  | none => some none
  | some JsonValue.null => some none
  | some v => (parseString v).map some

/-- An optional string field (`version`): same rules as `parseOptPath`. -/
def parseOptString : Option JsonValue → Option (Option String)
  | none => some none
  | some JsonValue.null => some none
  | some v => (parseString v).map some

/-- A `#[serde(default)]` Bool field: absent is `false`. -/
def parseBoolDefault : Option JsonValue → Option Bool
  | none => some false
  | some v => parseBool v

/-- Deserialize a `MemBackendConfig` object. `deny_unknown_fields`:
any field name outside `memBackendConfigFields` rejects the payload. -/
def deserializeMemBackendConfig (v : JsonValue) : Option MemBackendConfig :=
  match v with
  | JsonValue.obj fields =>
    if fields.all (fun kv => memBackendConfigFields.contains kv.1) then
      match lookupField fields "backend_path",
            lookupField fields "backend_type" with
      | some pv, some tv =>
        match parseString pv, parseMemBackendType tv with
        | some p, some t => some ⟨p, t⟩
        | _, _ => none
      | _, _ => none
    else none
  | _ => none

/-- An optional `mem_backend` field: absent or `null` is `none`;
otherwise the value must deserialize as a `MemBackendConfig`. -/
def parseOptBackend : Option JsonValue → Option (Option MemBackendConfig)
  | none => some none
  | some JsonValue.null => some none
  | some v => (deserializeMemBackendConfig v).map some

/-- Deserialize a `LoadSnapshotConfig` payload. `deny_unknown_fields`:
any field name outside `loadSnapshotConfigFields` rejects the payload.
Note that `mem_file_path` and `mem_backend` are independently optional:
nothing at this boundary relates the two. -/
def deserializeLoadSnapshotConfig (payload : List (String × JsonValue)) :
    Option LoadSnapshotConfig :=
  if payload.all (fun kv => loadSnapshotConfigFields.contains kv.1) then
    match lookupField payload "snapshot_path" with
    | none => none
    | some spv =>
      match parseString spv with
      | none => none
      | some sp =>
        match parseOptPath (lookupField payload "mem_file_path"),
              parseOptBackend (lookupField payload "mem_backend"),
              parseBoolDefault (lookupField payload "enable_diff_snapshots"),
              parseBoolDefault (lookupField payload "resume_vm") with
        | some mfp, some mb, some eds, some rv =>
            some ⟨sp, mfp, mb, eds, rv⟩
        | _, _, _, _ => none
  else none

/-- Deserialize a `CreateSnapshotParams` payload. `deny_unknown_fields`:
any field name outside `createSnapshotFields` rejects the payload. A
missing `snapshot_type` takes the source's serde default, `Full`. -/
def deserializeCreateSnapshotParams (payload : List (String × JsonValue)) :
    Option CreateSnapshotParams :=
  if payload.all (fun kv => createSnapshotFields.contains kv.1) then
    match lookupField payload "snapshot_path",
          lookupField payload "mem_file_path" with
    | some spv, some mfv =>
      match parseString spv, parseString mfv with
      | some sp, some mf =>
        match (match lookupField payload "snapshot_type" with
               | none => some SnapshotType.default
               | some v => parseSnapshotType v),
              parseOptString (lookupField payload "version") with
        | some st, some ver => some ⟨st, sp, mf, ver⟩
        | _, _ => none
      | _, _ => none
    | _, _ => none
  else none

/-- Concrete payload naming both `mem_file_path` and `mem_backend`
(every field name is in the schema). -/
def bothPresentPayload : List (String × JsonValue) :=
  [("snapshot_path", JsonValue.str "/s.snap"),
   ("mem_file_path", JsonValue.str "/mem.bin"),
   ("mem_backend", JsonValue.obj
     [("backend_path", JsonValue.str "/b.sock"),
      ("backend_type", JsonValue.str "Uffd")])]

/-- Concrete payload naming neither `mem_file_path` nor `mem_backend`. -/
def bothAbsentPayload : List (String × JsonValue) :=
  [("snapshot_path", JsonValue.str "/s.snap")]

/-- If a payload contains a field whose name the schema does not list,
the schema-wide `deny_unknown_fields` scan comes out `false`. -/
theorem all_contains_eq_false (schema : List String)
    (payload : List (String × JsonValue)) (k : String) (v : JsonValue)
    (hmem : (k, v) ∈ payload) (hk : schema.contains k = false) :
    payload.all (fun kv => schema.contains kv.1) = false := by
  cases hall : payload.all (fun kv => schema.contains kv.1) with
  | false => rfl
  | true =>
    have hcontra : schema.contains k = true :=
      List.all_eq_true.mp hall (k, v) hmem
    rw [hk] at hcontra
    exact Bool.noConfusion hcontra

/-- C1: for every raw load-snapshot configuration whose `mem_file_path`
is present (some path `P`) while `mem_backend` is absent, memory-backend
normalization succeeds with the canonical descriptor
`MemBackendConfig { backend_path := P, backend_type := File }`. -/
theorem normalize_file_only (cfg : LoadSnapshotConfig) (P : String)
    (hf : cfg.mem_file_path = some P) (hb : cfg.mem_backend = none) :
    resolveMemBackend cfg.mem_file_path cfg.mem_backend =
      Except.ok ⟨P, MemBackendType.File⟩ := by
  rw [hf, hb]
  rfl

theorem normalize_file_only_witness :
    resolveMemBackend
      (LoadSnapshotConfig.mk "/s.snap" (some "/mem.bin") none false true).mem_file_path
      (LoadSnapshotConfig.mk "/s.snap" (some "/mem.bin") none false true).mem_backend =
      Except.ok ⟨"/mem.bin", MemBackendType.File⟩ :=
  normalize_file_only ⟨"/s.snap", some "/mem.bin", none, false, true⟩
    "/mem.bin" rfl rfl

/-- C2: for every raw load-snapshot configuration, normalization rejects
with AmbiguousMemorySource when both `mem_file_path` and `mem_backend`
are present, and with MissingMemorySource when both are absent; both
results are `Except.error`, so normalization neither succeeds nor
coerces a default in either case. -/
theorem normalize_exclusivity_errors (cfg : LoadSnapshotConfig) :
    (cfg.mem_file_path.isSome = true → cfg.mem_backend.isSome = true →
      resolveMemBackend cfg.mem_file_path cfg.mem_backend =
        Except.error SnapshotConfigError.AmbiguousMemorySource) ∧
    (cfg.mem_file_path = none → cfg.mem_backend = none →
      resolveMemBackend cfg.mem_file_path cfg.mem_backend =
        Except.error SnapshotConfigError.MissingMemorySource) := by
  constructor
  · intro hf hb
    cases h1 : cfg.mem_file_path with
    | none => rw [h1] at hf; exact Bool.noConfusion hf
    | some p =>
      cases h2 : cfg.mem_backend with
      | none => rw [h2] at hb; exact Bool.noConfusion hb
      | some b => rfl
  · intro hf hb
    rw [hf, hb]
    rfl

theorem normalize_exclusivity_errors_witness :
    resolveMemBackend (some "/a") (some ⟨"/b", MemBackendType.Uffd⟩) =
      Except.error SnapshotConfigError.AmbiguousMemorySource ∧
    resolveMemBackend (none : Option String) (none : Option MemBackendConfig) =
      Except.error SnapshotConfigError.MissingMemorySource :=
  ⟨(normalize_exclusivity_errors
      ⟨"/s.snap", some "/a", some ⟨"/b", MemBackendType.Uffd⟩, false, false⟩).1
      rfl rfl,
   (normalize_exclusivity_errors
      ⟨"/s.snap", none, none, false, false⟩).2 rfl rfl⟩

/-- C3: for every raw load-snapshot configuration whose `mem_backend`
is present (some descriptor `B`) while `mem_file_path` is absent,
normalization succeeds with `B` itself, unchanged; consequently,
validating an already-canonical, descriptor-only input (built from a
`LoadSnapshotParams` with well-formed paths) returns that very value —
normalization is idempotent on canonical inputs. -/
theorem normalize_backend_passthrough :
    (∀ (cfg : LoadSnapshotConfig) (B : MemBackendConfig),
      cfg.mem_backend = some B → cfg.mem_file_path = none →
      resolveMemBackend cfg.mem_file_path cfg.mem_backend = Except.ok B) ∧
    (∀ p : LoadSnapshotParams, p.snapshot_path ≠ "" →
      p.mem_backend.backend_path ≠ "" →
      validateLoadConfig
        ⟨p.snapshot_path, none, some p.mem_backend,
         p.enable_diff_snapshots, p.resume_vm⟩ = Except.ok p) := by
  constructor
  · intro cfg B hb hf
    rw [hf, hb]
    rfl
  · intro p h1 h2
    unfold validateLoadConfig
    rw [if_neg h1, if_neg (by exact Option.noConfusion),
        if_neg (by simpa using h2)]
    rfl

theorem normalize_backend_passthrough_witness :
    resolveMemBackend (none : Option String)
      (some ⟨"/b.sock", MemBackendType.UffdPrivileged⟩) =
      Except.ok ⟨"/b.sock", MemBackendType.UffdPrivileged⟩ ∧
    validateLoadConfig
      ⟨"/s.snap", none, some ⟨"/b.sock", MemBackendType.UffdPrivileged⟩,
       true, false⟩ =
      Except.ok ⟨"/s.snap", ⟨"/b.sock", MemBackendType.UffdPrivileged⟩,
                 true, false⟩ :=
  ⟨normalize_backend_passthrough.1
      ⟨"/s.snap", none, some ⟨"/b.sock", MemBackendType.UffdPrivileged⟩,
       true, false⟩
      ⟨"/b.sock", MemBackendType.UffdPrivileged⟩ rfl rfl,
   normalize_backend_passthrough.2
      ⟨"/s.snap", ⟨"/b.sock", MemBackendType.UffdPrivileged⟩, true, false⟩
      (by decide) (by decide)⟩

/-- C4: every canonical `LoadSnapshotParams` produced by validation has
its `mem_backend` field equal to the descriptor the normalizer resolved
for that configuration; the field's type is the plain (non-optional)
`MemBackendConfig`, so no consumer of canonical parameters can observe
a missing memory backend. -/
theorem canonical_mem_backend_resolved (cfg : LoadSnapshotConfig)
    (p : LoadSnapshotParams) (h : validateLoadConfig cfg = Except.ok p) :
    resolveMemBackend cfg.mem_file_path cfg.mem_backend =
      Except.ok p.mem_backend := by
  unfold validateLoadConfig at h
  split at h
  · exact Except.noConfusion h
  split at h
  · exact Except.noConfusion h
  split at h
  · exact Except.noConfusion h
  split at h
  next e heq => exact Except.noConfusion h
  next b heq =>
    rw [heq]
    injection h with h2
    rw [← h2]

theorem canonical_mem_backend_resolved_witness :
    resolveMemBackend (some "/mem.bin") (none : Option MemBackendConfig) =
      Except.ok (LoadSnapshotParams.mk "/s.snap"
        ⟨"/mem.bin", MemBackendType.File⟩ false true).mem_backend :=
  canonical_mem_backend_resolved
    ⟨"/s.snap", some "/mem.bin", none, false, true⟩
    ⟨"/s.snap", ⟨"/mem.bin", MemBackendType.File⟩, false, true⟩
    rfl

/-- C5: every create-snapshot configuration whose output state-file path
equals its output memory-file path is rejected by create-configuration
validation with ConflictingOutputPaths. -/
theorem create_conflicting_output_paths (cfg : CreateSnapshotConfig)
    (h : cfg.snapshot_path = cfg.mem_file_path) :
    validateCreateConfig cfg =
      Except.error SnapshotConfigError.ConflictingOutputPaths := by
  unfold validateCreateConfig
  rw [if_pos h]

theorem create_conflicting_output_paths_witness :
    validateCreateConfig ⟨none, "/s.snap", "/s.snap", none⟩ =
      Except.error SnapshotConfigError.ConflictingOutputPaths :=
  create_conflicting_output_paths ⟨none, "/s.snap", "/s.snap", none⟩ rfl

/-- C6: in the lifecycle machine over `VmState`, from Paused a load with
`resume_vm = true` moves the tracked state to Resumed, a load with
`resume_vm = false` leaves it Paused, a snapshot-create request is
permitted exactly from Paused (and leaves it Paused), and every defined
transition starts from Paused — no other transitions exist in this
core. -/
theorem lifecycle_transitions :
    vmStep VmState.Paused (SnapshotAction.load true) = some VmState.Resumed ∧
    vmStep VmState.Paused (SnapshotAction.load false) = some VmState.Paused ∧
    vmStep VmState.Paused SnapshotAction.createSnapshot = some VmState.Paused ∧
    (∀ (s : VmState) (a : SnapshotAction) (s2 : VmState),
      vmStep s a = some s2 → s = VmState.Paused) := by
  refine ⟨rfl, rfl, rfl, ?_⟩
  intro s a s2 h
  cases s with
  | Paused => rfl
  | Resumed => exact Option.noConfusion h

theorem lifecycle_transitions_witness :
    VmState.Paused = VmState.Paused :=
  lifecycle_transitions.2.2.2 VmState.Paused (SnapshotAction.load true)
    VmState.Resumed rfl

/-- C7: the snapshot-type resolver maps an omitted tag to the default
`Full`, passes a present tag through unchanged, and is a total function
(no error outcome); accordingly, deserializing a create payload that
omits `snapshot_type` yields a `CreateSnapshotParams` whose type is
`Full`. -/
theorem snapshot_type_defaults_full :
    resolveSnapshotType none = SnapshotType.Full ∧
    (∀ t : SnapshotType, resolveSnapshotType (some t) = t) ∧
    deserializeCreateSnapshotParams
      [("snapshot_path", JsonValue.str "/s.snap"),
       ("mem_file_path", JsonValue.str "/mem.bin")] =
      some ⟨SnapshotType.Full, "/s.snap", "/mem.bin", none⟩ :=
  ⟨rfl, fun t => rfl, by decide⟩

theorem snapshot_type_defaults_full_witness :
    resolveSnapshotType (some SnapshotType.Diff) = SnapshotType.Diff :=
  snapshot_type_defaults_full.2.1 SnapshotType.Diff

/-- C8: every load-snapshot configuration that carries an empty string
in a position where a path is required — `snapshot_path`, a present
`mem_file_path`, or the `backend_path` of a present `mem_backend` — is
rejected by validation with InvalidPath. -/
theorem load_empty_path_rejected (cfg : LoadSnapshotConfig)
    (h : cfg.snapshot_path = "" ∨ cfg.mem_file_path = some "" ∨
         (∃ b, cfg.mem_backend = some b ∧ b.backend_path = "")) :
    validateLoadConfig cfg = Except.error SnapshotConfigError.InvalidPath := by
  unfold validateLoadConfig
  split
  · rfl
  split
  · rfl
  split
  · rfl
  next h1 h2 h3 =>
    rcases h with h | h | ⟨b, hb, hbp⟩
    · exact absurd h h1
    · exact absurd h h2
    · exact absurd (by simp [hb, hbp]) h3

theorem load_empty_path_rejected_witness :
    validateLoadConfig
      ⟨"/s.snap", none, some ⟨"", MemBackendType.File⟩, false, false⟩ =
      Except.error SnapshotConfigError.InvalidPath :=
  load_empty_path_rejected
    ⟨"/s.snap", none, some ⟨"", MemBackendType.File⟩, false, false⟩
    (Or.inr (Or.inr ⟨⟨"", MemBackendType.File⟩, rfl, rfl⟩))

/-- C9: a payload containing a field name outside the documented schema
is rejected by deserialization — for create-snapshot payloads,
load-snapshot payloads, and memory-backend sub-objects alike — rather
than having the unrecognized field ignored. -/
theorem unknown_fields_rejected (payload : List (String × JsonValue))
    (k : String) (v : JsonValue) (hmem : (k, v) ∈ payload) :
    (createSnapshotFields.contains k = false →
      deserializeCreateSnapshotParams payload = none) ∧
    (loadSnapshotConfigFields.contains k = false →
      deserializeLoadSnapshotConfig payload = none) ∧
    (memBackendConfigFields.contains k = false →
      deserializeMemBackendConfig (JsonValue.obj payload) = none) := by
  refine ⟨fun hk => ?_, fun hk => ?_, fun hk => ?_⟩
  · have hall := all_contains_eq_false createSnapshotFields payload k v hmem hk
    unfold deserializeCreateSnapshotParams
    rw [if_neg (by rw [hall]; exact fun h2 => Bool.noConfusion h2)]
  · have hall := all_contains_eq_false loadSnapshotConfigFields payload k v hmem hk
    unfold deserializeLoadSnapshotConfig
    rw [if_neg (by rw [hall]; exact fun h2 => Bool.noConfusion h2)]
  · have hall := all_contains_eq_false memBackendConfigFields payload k v hmem hk
    simp only [deserializeMemBackendConfig]
    rw [if_neg (by rw [hall]; exact fun h2 => Bool.noConfusion h2)]

theorem unknown_fields_rejected_witness :
    deserializeCreateSnapshotParams [("bogus", JsonValue.null)] = none ∧
    deserializeLoadSnapshotConfig [("bogus", JsonValue.null)] = none ∧
    deserializeMemBackendConfig
      (JsonValue.obj [("bogus", JsonValue.null)]) = none :=
  ⟨(unknown_fields_rejected [("bogus", JsonValue.null)] "bogus"
      JsonValue.null (List.Mem.head _)).1 (by decide),
   (unknown_fields_rejected [("bogus", JsonValue.null)] "bogus"
      JsonValue.null (List.Mem.head _)).2.1 (by decide),
   (unknown_fields_rejected [("bogus", JsonValue.null)] "bogus"
      JsonValue.null (List.Mem.head _)).2.2 (by decide)⟩

/-- C10: the raw `LoadSnapshotConfig` type admits the illegal
combinations: a deserializable payload with both `mem_file_path` and
`mem_backend` present is accepted (yielding a value with both fields
`some`), and one with both absent is accepted (yielding a value with
both fields `none`) — mutual exclusivity is not enforced at the type
level of the raw configuration. -/
theorem raw_config_admits_illegal_shapes :
    deserializeLoadSnapshotConfig bothPresentPayload =
      some ⟨"/s.snap", some "/mem.bin",
            some ⟨"/b.sock", MemBackendType.Uffd⟩, false, false⟩ ∧
    deserializeLoadSnapshotConfig bothAbsentPayload =
      some ⟨"/s.snap", none, none, false, false⟩ :=
  ⟨by decide, by decide⟩

end Snapshot
